import Mathlib

/-!
Verification of the EcoHarvest marketplace backend against its design
specification.  The definitions below are a shallow embedding of the
JavaScript services:

* `src/backend/services/payment-service/src/index.js` — payment ledger
  (`/initiate`, `/confirm`, `/:paymentId/refund` routes);
* `src/backend/services/order-service/src/routes/order.routes.js` and
  `src/backend/services/order-service/src/models/order.model.js` — order
  ledger (`POST /`, `PUT /:id/status`, `POST /:id/cancel` routes);
* `src/backend/services/product-service/src/routes/product.routes.js` —
  inventory maintenance (`updateInventory`);
* `src/backend/packages/shared/messaging.js` — the RabbitMQ client
  (`subscribe` consumer loop).

Monetary quantities are modelled as rationals; Mongo documents become
structures; a route becomes a function from the aggregate it loads to an
`HttpResult` carrying the HTTP status code the route answers with.
Nondeterminism from the environment (the mock gateway's random outcome,
fresh uuids) is made explicit as parameters.
-/

/-- Outcome of an Express route handler: a success response with its HTTP
status code and payload, or an error response with its code and message. -/
inductive HttpResult (α : Type) where
  | ok (code : Nat) (a : α)
  | err (code : Nat) (msg : String)
deriving DecidableEq, Repr

namespace HttpResult

/-- The route answered with a success payload. -/
def isOk {α : Type} : HttpResult α → Bool
  | .ok _ _ => true
  | .err _ _ => false

end HttpResult

/-! ## Payment service (`payment-service/src/index.js`)

The `paymentSchema` enum of statuses, lines 31-35 of the source. -/

/-- `status` enum of `paymentSchema`:
`['initiated', 'processing', 'completed', 'failed', 'refunded', 'cancelled']`. -/
inductive PaymentStatus where
  | initiated
  | processing
  | completed
  | failed
  | refunded
  | cancelled
deriving DecidableEq, Repr

/-- A `Payment` document of the payment service.  `gatewayTransactionId`
models the `transactionId` field the `/confirm` route writes into
`gatewayResponse`; `Date` fields (`refundedAt`, timestamps) are elided as
the claims do not mention them. -/
structure Payment where
  paymentId : String
  orderId : String
  userId : String
  amount : ℚ
  method : String
  status : PaymentStatus
  gatewayTransactionId : Option String
  refundAmount : Option ℚ
  refundReason : Option String
deriving DecidableEq, Repr

/-- The document `Payment.create` builds in the `/initiate` route
(lines 58-66): status is always `'initiated'`, no refund fields.  The
fresh `pay_` uuid is passed in as `pid`. -/
def mkPayment (pid orderId userId : String) (amount : ℚ) (method : String) :
    Payment :=
  { paymentId := pid
    orderId := orderId
    userId := userId
    amount := amount
    method := method
    status := .initiated
    gatewayTransactionId := none
    refundAmount := none
    refundReason := none }

/-- `POST /initiate` (payment-service lines 54-91): unconditionally runs
`Payment.create({... status: 'initiated' ...})` — the route performs no
lookup of existing payments for `orderId`.  The store is the `payments`
collection as a list; the route appends the new document and responds 201
with it. -/
def initiate (store : List Payment) (pid orderId userId : String)
    (amount : ℚ) (method : String) : List Payment × HttpResult Payment :=
  let p := mkPayment pid orderId userId amount method
  (store ++ [p], .ok 201 p)

/-- A payment status the spec calls non-terminal (still in flight). -/
def PaymentStatus.nonTerminal : PaymentStatus → Bool
  | .initiated => true
  | .processing => true
  | _ => false

/-- `POST /confirm` (payment-service lines 94-136) on a payment that was
found.  The route draws `isSuccess` from `Math.random() > 0.1` (passed in
here as a parameter), then unconditionally assigns
`payment.status = isSuccess ? 'completed' : 'failed'`, overwrites
`payment.gatewayResponse` with a fresh `txn_` transaction id, and saves.
There is no check of the payment's current status and no keying on any
prior gateway correlation id. -/
def confirm (p : Payment) (isSuccess : Bool) (txnId : String) : Payment :=
  { p with
    status := if isSuccess then .completed else .failed
    gatewayTransactionId := some txnId }

/-- `POST /:paymentId/refund` (payment-service lines 164-201) on a payment
that was found.  Rejects with 400 unless `status === 'completed'`;
otherwise computes `refundAmount = amount || payment.amount` (a missing or
zero `amount` is falsy in JavaScript, so it falls back to the full
original amount — modelled as `none` or `some 0`), sets status
`'refunded'` and the refund fields, and responds 200.  No comparison of
the requested amount with the original amount occurs anywhere in the
route. -/
def refund (p : Payment) (amount : Option ℚ) (reason : Option String) :
    HttpResult Payment :=
  if p.status ≠ PaymentStatus.completed then
    .err 400 "Only completed payments can be refunded"
  else
    let refundAmount : ℚ :=
      match amount with
      | none => p.amount
      | some a => if a = 0 then p.amount else a
    .ok 200 { p with
      status := .refunded
      refundAmount := some refundAmount
      refundReason := reason }

/-! ## Order service (`order.routes.js`, `order.model.js`)

Order `status` lives in the Mongo schema as a String with an enum
validator, but the `PUT /:id/status` route writes it through
`findByIdAndUpdate`, which by default does not run validators, so at the
route level the status is an unconstrained string.  We therefore model
`status` as `String`, with the schema's enum values as constants. -/

/-- One entry of `orderItemSchema`: frozen unit price and line subtotal. -/
structure OrderItem where
  productId : String
  vendorId : String
  quantity : Nat
  price : ℚ
  subtotal : ℚ
deriving DecidableEq, Repr

/-- An `Order` document.  Addresses, timestamps (`confirmedAt`,
`shippedAt`, ...) and free-text metadata are elided; the claims concern
the money fields, `status`, `trackingNumber`, `carrier` and
`cancellationReason`. -/
structure Order where
  customerId : String
  items : List OrderItem
  subtotal : ℚ
  shippingCost : ℚ
  tax : ℚ
  discount : ℚ
  totalAmount : ℚ
  paymentMethod : String
  status : String
  trackingNumber : Option String
  carrier : Option String
  cancellationReason : Option String
deriving DecidableEq, Repr

/-- `POST /` (order.routes.js lines 81-127): computes
`subtotal = items.reduce((sum, item) => sum + item.subtotal, 0)`,
`shippingCost = subtotal > 500 ? 0 : 50`,
`tax = Math.round(subtotal * 0.18)`,
`totalAmount = subtotal + shippingCost + tax`, and creates the order with
status `'Confirmed'` for `paymentMethod === 'cod'` and
`'Pending Payment'` otherwise.  The schema default `discount: 0` applies
since the route never sets `discount`.  No emptiness check of `items`
exists in the route, and `orderItemSchema` places no minimum length on
the array, so an empty `items` list passes validation. -/
def createOrder (customerId : String) (items : List OrderItem)
    (paymentMethod : String) : Order :=
  let subtotal : ℚ := (items.map (fun i => i.subtotal)).sum
  let shippingCost : ℚ := if subtotal > 500 then 0 else 50
  let tax : ℚ := (round (subtotal * 18 / 100) : ℤ)
  let totalAmount : ℚ := subtotal + shippingCost + tax
  { customerId := customerId
    items := items
    subtotal := subtotal
    shippingCost := shippingCost
    tax := tax
    discount := 0
    totalAmount := totalAmount
    paymentMethod := paymentMethod
    status := if paymentMethod = "cod" then "Confirmed" else "Pending Payment"
    trackingNumber := none
    carrier := none
    cancellationReason := none }

/-- The `POST /` route handler around `createOrder`: the only failure path
is the catch-all 500 for store errors; on the happy path it always
responds 201 with the created order. -/
def createOrderRoute (customerId : String) (items : List OrderItem)
    (paymentMethod : String) : HttpResult Order :=
  .ok 201 (createOrder customerId items paymentMethod)

/-- The update document built by `PUT /:id/status`
(order.routes.js lines 130-165) applied to the loaded order: sets
`status` to the requested string, and when the requested status is
`'Shipped'` also copies `trackingNumber`/`carrier` from the body if
present.  The route never reads the order's current status. -/
def applyStatusUpdate (o : Order) (newStatus : String)
    (trackingNumber carrier : Option String) : Order :=
  { o with
    status := newStatus
    trackingNumber :=
      if newStatus = "Shipped" then
        match trackingNumber with
        | some t => some t
        | none => o.trackingNumber
      else o.trackingNumber
    carrier :=
      if newStatus = "Shipped" then
        match carrier with
        | some c => some c
        | none => o.carrier
      else o.carrier }

/-- `PUT /:id/status` on an order that was found: unconditionally performs
`findByIdAndUpdate` with the update document and responds 200 with the
updated order.  There is no transition table, no comparison with the
current status, and no 409 answer anywhere in the route. -/
def updateStatusRoute (o : Order) (newStatus : String)
    (trackingNumber carrier : Option String) : HttpResult Order :=
  .ok 200 (applyStatusUpdate o newStatus trackingNumber carrier)

/-- The cancellation write of `POST /:id/cancel`: status `'Cancelled'`
plus the reason (the `cancelledAt` timestamp is elided). -/
def applyCancel (o : Order) (reason : Option String) : Order :=
  { o with status := "Cancelled", cancellationReason := reason }

/-- `POST /:id/cancel` (order.routes.js lines 168-199) on an order that
was found: rejects with 400 exactly when the current status is one of
`['Shipped', 'Out for Delivery', 'Delivered']`; from any other status it
saves the cancellation and responds 200. -/
def cancelOrderRoute (o : Order) (reason : Option String) :
    HttpResult Order :=
  if o.status = "Shipped" ∨ o.status = "Out for Delivery" ∨
      o.status = "Delivered" then
    .err 400 "Order cannot be cancelled at this stage"
  else
    .ok 200 (applyCancel o reason)

/-- The §4.1 order transition table, written from the spec's words to
compare the route against it: Pending → PendingPayment | Confirmed;
PendingPayment → Confirmed | Cancelled; Confirmed → Processing → Shipped
→ Out for Delivery → Delivered (forward-only); each of Pending,
PendingPayment, Confirmed, Processing → Cancelled; Delivered → Refunded.  Statuses use the schema's spellings. -/
def specAllowedTransition (fromStatus toStatus : String) : Bool :=
  decide ((fromStatus, toStatus) ∈ ([
    ("Pending", "Pending Payment"),
    ("Pending", "Confirmed"),
    ("Pending", "Cancelled"),
    ("Pending Payment", "Confirmed"),
    ("Pending Payment", "Cancelled"),
    ("Confirmed", "Processing"),
    ("Confirmed", "Cancelled"),
    ("Processing", "Shipped"),
    ("Processing", "Cancelled"),
    ("Shipped", "Out for Delivery"),
    ("Out for Delivery", "Delivered"),
    ("Delivered", "Refunded")] : List (String × String)))

/-! ## Product service inventory (`product.routes.js`, `updateInventory`) -/

/-- `operation` values accepted by `updateInventory`'s body (default
`'set'`). -/
inductive InvOp where
  | increment
  | decrement
  | set
deriving DecidableEq, Repr

/-- The inventory-relevant fields of a `Product` document.  The product
schema declares `quantity: min 0 ('Quantity cannot be negative')`, but
`updateInventory` writes through `findByIdAndUpdate` without
`runValidators`, so the stored quantity is an unconstrained integer at
this route. -/
structure ProductInv where
  quantity : ℤ
  lowStockThreshold : ℤ
deriving DecidableEq, Repr

/-- `updateInventory` (product.routes.js lines 299-346) on a product that
was found: applies `$inc quantity` for `'increment'`,
`$inc -quantity` for `'decrement'` (unconditionally — no comparison of
the current quantity with the decrement), `$set quantity` otherwise, then
publishes `inventory.low` when the new quantity is `≤ lowStockThreshold`
and `> 0`.  Returns the updated record and whether the low-stock fact was
published. -/
def updateInventory (p : ProductInv) (qty : ℤ) (op : InvOp) :
    ProductInv × Bool :=
  let newQty : ℤ :=
    match op with
    | .increment => p.quantity + qty
    | .decrement => p.quantity - qty
    | .set => qty
  ({ p with quantity := newQty },
    decide (newQty ≤ p.lowStockThreshold ∧ 0 < newQty))

/-! ## Shared messaging client (`packages/shared/messaging.js`) -/

/-- What the consumer callback installed by `RabbitMQ.subscribe` does with
a delivery. -/
inductive MsgAction where
  | ack
  | nackRequeue
  | deadLetter
deriving DecidableEq, Repr

/-- The consumer callback of `RabbitMQ.subscribe` (messaging.js lines
89-120): `await handler(content, msg)` then `ack` on success; on any
thrown error, `nack(msg, false, true)` — reject with requeue.
`handlerThrows` is whether the handler threw on this delivery and
`redeliveryCount` how many times the broker has already redelivered the
message; the callback inspects neither a redelivery count nor any
dead-letter configuration (none is declared on the queue), which the
unused second parameter records. -/
def consumeAction (handlerThrows : Bool) (_redeliveryCount : Nat) :
    MsgAction :=
  if handlerThrows then .nackRequeue else .ack

/-- Fate of one poisoned message (its handler throws on every delivery)
under the subscribe loop: after `n` deliveries the message is back on the
queue iff every delivery ended in `nackRequeue`; it is dead-lettered iff
some delivery ended in `deadLetter`.  This folds `consumeAction` over the
delivery sequence. -/
def poisonedStillQueued : Nat → Bool
  | 0 => true
  | n + 1 =>
    poisonedStillQueued n && decide (consumeAction true n = MsgAction.nackRequeue)

/-! ## Claims about the payment lifecycle -/

/-- A payment that has already reached Completed, as `/confirm` leaves it
(transaction id recorded). -/
def confirmedPaymentEx : Payment :=
  { mkPayment "pay_1" "ord_1" "user_1" 100 "card" with
    status := .completed
    gatewayTransactionId := some "txn_1" }

/-- C1 counterexample.  The claim says a Completed payment never
transitions to Completed again and a repeated `confirm` with identical
evidence produces no further observable state change.  On the code,
`confirm` on an already-Completed payment re-runs the gateway roll and
saves again: with a success outcome the payment is set to Completed a
second time with a fresh transaction id (an observable change), and with
a failure outcome the Completed payment even moves to Failed. -/
theorem C1_counterexample :
    confirmedPaymentEx.status = PaymentStatus.completed ∧
    (confirm confirmedPaymentEx true "txn_2").status = PaymentStatus.completed ∧
    confirm confirmedPaymentEx true "txn_2" ≠ confirmedPaymentEx ∧
    (confirm confirmedPaymentEx false "txn_3").status = PaymentStatus.failed := by
  refine ⟨rfl, rfl, ?_, rfl⟩
  intro h
  exact absurd (congrArg Payment.gatewayTransactionId h) (by decide)

/-- C1 amended.  `confirm` has no idempotency guard: whatever the
payment's current status, it sets the status to Completed or Failed
according to the gateway outcome of this call and overwrites the stored
gateway transaction id, while leaving amount, orderId and userId
untouched.  A second call can therefore complete (or fail) the payment
again. -/
theorem C1_confirm_unconditional (p : Payment) (ok : Bool) (txn : String) :
    (confirm p ok txn).status =
      (if ok then PaymentStatus.completed else PaymentStatus.failed) ∧
    (confirm p ok txn).gatewayTransactionId = some txn ∧
    (confirm p ok txn).amount = p.amount ∧
    (confirm p ok txn).orderId = p.orderId ∧
    (confirm p ok txn).userId = p.userId := by
  simp [confirm]

/-- C2: the spec requires inventory decrements be conditional
(`quantity -= qty` only when `quantity ≥ qty`) and rejected rather than
applied when they would go negative, and the product schema itself
declares `min: 0` (`Quantity cannot be negative`) on `quantity` — but
`updateInventory` applies `$inc: -quantity` unconditionally through
`findByIdAndUpdate` (which skips validators), so a decrement of 2 on a
product holding 1 stores quantity −1 and answers 200. -/
theorem C2_decrement_goes_negative :
    (updateInventory { quantity := 1, lowStockThreshold := 10 } 2
      InvOp.decrement).1.quantity = -1 ∧
    (updateInventory { quantity := 1, lowStockThreshold := 10 } 2
      InvOp.decrement).2 = false := by
  decide

/-- C4 confirmed.  Every created order satisfies
totalAmount = subtotal − discount + tax + shippingCost (the route stores
discount = 0 and totalAmount = subtotal + shippingCost + tax), the stored
subtotal is the sum of the items' subtotals, and the only two routes that
mutate an order afterwards (status update, cancel) leave all five money
fields unchanged, so the value is fixed at creation. -/
theorem C4_totalAmount_formula (cid : String) (items : List OrderItem)
    (pm : String) :
    ((createOrder cid items pm).totalAmount =
      (createOrder cid items pm).subtotal - (createOrder cid items pm).discount
        + (createOrder cid items pm).tax
        + (createOrder cid items pm).shippingCost) ∧
    ((createOrder cid items pm).subtotal =
      (items.map (fun i => i.subtotal)).sum) ∧
    (∀ s tn c, (applyStatusUpdate (createOrder cid items pm) s tn c).totalAmount
        = (createOrder cid items pm).totalAmount
      ∧ (applyStatusUpdate (createOrder cid items pm) s tn c).subtotal
        = (createOrder cid items pm).subtotal
      ∧ (applyStatusUpdate (createOrder cid items pm) s tn c).discount
        = (createOrder cid items pm).discount
      ∧ (applyStatusUpdate (createOrder cid items pm) s tn c).tax
        = (createOrder cid items pm).tax
      ∧ (applyStatusUpdate (createOrder cid items pm) s tn c).shippingCost
        = (createOrder cid items pm).shippingCost) ∧
    (∀ r, (applyCancel (createOrder cid items pm) r).totalAmount
        = (createOrder cid items pm).totalAmount) := by
  refine ⟨?_, ?_, ?_, ?_⟩
  · simp only [createOrder]
    ring
  · simp [createOrder]
  · intro s tn c
    refine ⟨rfl, rfl, rfl, rfl, rfl⟩
  · intro r
    rfl

/-- A non-terminal (Initiated) payment already stored for order
`ord_5`. -/
def pendingPaymentEx : Payment := mkPayment "pay_5a" "ord_5" "user_5" 100 "card"

/-- C5 counterexample.  The claim says a repeated `initiate` for an order
with an existing non-terminal Payment returns that Payment and creates no
second record.  On the code, `initiate` performs no lookup: with an
Initiated payment for `ord_5` already stored, a second `initiate` for
`ord_5` appends a fresh record, leaving two Payment documents for the
same order, and responds with the new record rather than the existing
one. -/
theorem C5_counterexample :
    pendingPaymentEx.status.nonTerminal = true ∧
    ((initiate [pendingPaymentEx] "pay_5b" "ord_5" "user_5" 100 "card").1.filter
      (fun p => p.orderId == "ord_5")).length = 2 ∧
    (initiate [pendingPaymentEx] "pay_5b" "ord_5" "user_5" 100 "card").2 ≠
      HttpResult.ok 201 pendingPaymentEx := by
  refine ⟨rfl, by decide, ?_⟩
  intro h
  simp only [initiate, HttpResult.ok.injEq, true_and] at h
  exact absurd (congrArg Payment.paymentId h) (by decide)

/-- C5 amended.  `initiate` is not idempotent by orderId: every call
appends a fresh Payment document with status Initiated for the requested
order — the number of stored payments for that orderId always grows by
one — and answers 201 with the new document, regardless of any existing
payment for the same order. -/
theorem C5_initiate_always_creates (store : List Payment)
    (pid oid uid : String) (amt : ℚ) (m : String) :
    (((initiate store pid oid uid amt m).1.filter
        (fun p => p.orderId == oid)).length =
      (store.filter (fun p => p.orderId == oid)).length + 1) ∧
    (initiate store pid oid uid amt m).2 =
      HttpResult.ok 201 (mkPayment pid oid uid amt m) ∧
    (mkPayment pid oid uid amt m).status = PaymentStatus.initiated := by
  refine ⟨?_, rfl, rfl⟩
  simp [initiate, mkPayment, List.filter_append]

/-! ## Claims about the order lifecycle -/

/-- An order that has already been delivered. -/
def deliveredOrderEx : Order :=
  { createOrder "cust_3" [] "cod" with status := "Delivered" }

/-- C3 counterexample.  The claim says a status update succeeds only when
(currentStatus, newStatus) is in the §4.1 table and is otherwise rejected
with 409 leaving the status unchanged.  On the code, `PUT /:id/status`
writes the requested status unconditionally: the backward transition
Delivered → Pending, absent from the table, is accepted with 200 and the
order's status becomes Pending. -/
theorem C3_counterexample :
    specAllowedTransition "Delivered" "Pending" = false ∧
    updateStatusRoute deliveredOrderEx "Pending" none none =
      HttpResult.ok 200 { deliveredOrderEx with status := "Pending" } ∧
    (applyStatusUpdate deliveredOrderEx "Pending" none none).status ≠
      deliveredOrderEx.status := by
  refine ⟨by decide, ?_, by decide⟩
  simp [updateStatusRoute, applyStatusUpdate]

/-- C3 amended.  `PUT /:id/status` performs no transition check at all:
for an existing order it always answers 200 with the requested status
written, whatever the current status — including transitions outside the
§4.1 table — and no 409 is ever produced.  (Money fields are untouched, a
tracking number is only recorded when the new status is Shipped.) -/
theorem C3_status_update_unchecked (o : Order) (s : String)
    (tn c : Option String) :
    ∃ o2, updateStatusRoute o s tn c = HttpResult.ok 200 o2 ∧
      o2.status = s ∧ o2.totalAmount = o.totalAmount ∧ o2.items = o.items := by
  exact ⟨applyStatusUpdate o s tn c, rfl, rfl, rfl, rfl⟩

/-- An order whose payment was already refunded. -/
def refundedOrderEx : Order :=
  { createOrder "cust_6" [] "cod" with status := "Refunded" }

/-- C6 counterexample.  The claim says cancellation is rejected for every
status in the set Shipped, Out for Delivery, Delivered, Cancelled,
Refunded.  On the code, the guard in `POST /:id/cancel` blocks only
Shipped, Out for Delivery and Delivered: a Refunded order is happily
cancelled, answering 200 with status moved from Refunded to
Cancelled. -/
theorem C6_counterexample :
    refundedOrderEx.status = "Refunded" ∧
    cancelOrderRoute refundedOrderEx (some "changed mind") =
      HttpResult.ok 200 { refundedOrderEx with
        status := "Cancelled", cancellationReason := some "changed mind" } ∧
    cancelOrderRoute { refundedOrderEx with status := "Cancelled" } none =
      HttpResult.ok 200 { refundedOrderEx with
        status := "Cancelled", cancellationReason := none } := by
  refine ⟨rfl, ?_, ?_⟩ <;> simp [cancelOrderRoute, applyCancel, refundedOrderEx]

/-- C6 amended.  Cancellation is rejected with 400 (order untouched)
exactly when the current status is Shipped, Out for Delivery or
Delivered; from every other status — including Cancelled and Refunded —
it succeeds with 200 and moves the order to Cancelled. -/
theorem C6_cancel_guard (o : Order) (r : Option String) :
    (o.status = "Shipped" ∨ o.status = "Out for Delivery" ∨
        o.status = "Delivered" →
      cancelOrderRoute o r =
        HttpResult.err 400 "Order cannot be cancelled at this stage") ∧
    (¬(o.status = "Shipped" ∨ o.status = "Out for Delivery" ∨
        o.status = "Delivered") →
      cancelOrderRoute o r = HttpResult.ok 200 (applyCancel o r) ∧
        (applyCancel o r).status = "Cancelled" ∧
        (applyCancel o r).totalAmount = o.totalAmount) := by
  constructor
  · intro h
    simp [cancelOrderRoute, h]
  · intro h
    refine ⟨?_, rfl, rfl⟩
    simp [cancelOrderRoute, h]

/-- Witness for `C6_cancel_guard`: a Shipped order is refused, a Refunded
order is cancelled. -/
theorem C6_cancel_guard_witness :
    cancelOrderRoute { createOrder "cust_6w" [] "cod" with status := "Shipped" }
        none =
      HttpResult.err 400 "Order cannot be cancelled at this stage" ∧
    cancelOrderRoute refundedOrderEx none =
      HttpResult.ok 200 (applyCancel refundedOrderEx none) := by
  constructor
  · exact
      (C6_cancel_guard { createOrder "cust_6w" [] "cod" with status := "Shipped" }
        none).1 (Or.inl rfl)
  · exact ((C6_cancel_guard refundedOrderEx none).2 (by decide)).1

/-- C7 counterexample.  The claim says creating an order from an empty
cart fails with a 400 validation error and creates no order.  On the
code, no emptiness check exists: an empty items list yields a 201
response carrying a created order with subtotal 0, shipping 50, tax 0 and
totalAmount 50. -/
theorem C7_counterexample :
    createOrderRoute "cust_7" [] "cod" =
      HttpResult.ok 201 (createOrder "cust_7" [] "cod") ∧
    (createOrderRoute "cust_7" [] "cod").isOk = true ∧
    (createOrder "cust_7" [] "cod").subtotal = 0 ∧
    (createOrder "cust_7" [] "cod").totalAmount = 50 := by
  refine ⟨rfl, rfl, rfl, ?_⟩
  simp [createOrder]

/-- C7 amended.  `POST /` never validates cart emptiness: order creation
succeeds with 201 for every items list, the empty list included (in which
case the order has subtotal 0 and totalAmount 50 = 0 + shipping 50 +
tax 0); non-empty carts likewise succeed with 201. -/
theorem C7_create_no_empty_check (cid pm : String) (items : List OrderItem) :
    (createOrderRoute cid items pm).isOk = true ∧
    createOrderRoute cid [] pm = HttpResult.ok 201 (createOrder cid [] pm) ∧
    (createOrder cid [] pm).subtotal = 0 ∧
    (createOrder cid [] pm).totalAmount = 50 := by
  refine ⟨rfl, rfl, rfl, ?_⟩
  simp [createOrder]

/-! ## Claims about the messaging client -/

/-- C8 counterexample.  The claim says a message whose handler throws is
redelivered at most once and then dead-lettered.  On the code, the
consumer callback answers every handler failure with
`nack(msg, false, true)` — requeue — without consulting any redelivery
count, and no dead-letter queue is configured: on the delivery after the
first redelivery the action is again requeue, not dead-letter, and a
poisoned message is still on the queue after five deliveries. -/
theorem C8_counterexample :
    consumeAction true 1 = MsgAction.nackRequeue ∧
    consumeAction true 1 ≠ MsgAction.deadLetter ∧
    poisonedStillQueued 5 = true := by
  decide

/-- C8 amended.  A message whose handler throws is nacked with requeue on
every delivery, however many redeliveries have already happened, so it is
redelivered indefinitely and never dead-lettered; it is also never
silently dropped — a delivery is acked exactly when the handler
succeeds, and a poisoned message remains queued after any number of
deliveries. -/
theorem C8_requeue_forever (n : Nat) :
    consumeAction true n = MsgAction.nackRequeue ∧
    consumeAction false n = MsgAction.ack ∧
    poisonedStillQueued n = true := by
  refine ⟨rfl, rfl, ?_⟩
  induction n with
  | zero => rfl
  | succ k ih => simp [poisonedStillQueued, consumeAction, ih]

/-! ## Claims about refunds -/

/-- A Completed payment of 100 for claim C9. -/
def completedPaymentEx : Payment :=
  { mkPayment "pay_9" "ord_9" "user_9" 100 "card" with status := .completed }

/-- C9 counterexample.  The claim says a refund succeeds only when the
payment is Completed and the requested amount is ≤ the original amount.
On the code, no amount bound is checked: refunding 200 against a
Completed payment of 100 succeeds with 200 and stores refundAmount
200. -/
theorem C9_counterexample :
    completedPaymentEx.amount = 100 ∧
    ¬((200 : ℚ) ≤ completedPaymentEx.amount) ∧
    refund completedPaymentEx (some 200) (some "damaged") =
      HttpResult.ok 200 { completedPaymentEx with
        status := .refunded
        refundAmount := some 200
        refundReason := some "damaged" } := by
  refine ⟨rfl, by norm_num [completedPaymentEx, mkPayment], ?_⟩
  simp [refund, completedPaymentEx, mkPayment]

/-- C9 amended.  A refund succeeds exactly when the payment's status is
Completed; otherwise it is rejected with 400 and the payment is
unchanged.  The requested amount is never compared with the original: on
a Completed payment any non-zero amount is accepted and stored as
refundAmount (a missing or zero amount falls back to the full original
amount), with status moved to Refunded. -/
theorem C9_refund_guard (p : Payment) (amt : Option ℚ) (r : Option String) :
    ((refund p amt r).isOk = true ↔ p.status = PaymentStatus.completed) ∧
    (p.status ≠ PaymentStatus.completed →
      refund p amt r = HttpResult.err 400
        "Only completed payments can be refunded") ∧
    (p.status = PaymentStatus.completed → ∀ a : ℚ, a ≠ 0 →
      refund p (some a) r = HttpResult.ok 200 { p with
        status := .refunded
        refundAmount := some a
        refundReason := r }) := by
  refine ⟨?_, ?_, ?_⟩
  · by_cases h : p.status = PaymentStatus.completed <;>
      simp [refund, h, HttpResult.isOk]
  · intro h
    simp [refund, h]
  · intro h a ha
    simp [refund, h, ha]

/-- Witness for `C9_refund_guard`: an Initiated payment is refused, and a
Completed payment of 100 accepts a refund of 200. -/
theorem C9_refund_guard_witness :
    refund (mkPayment "pay_9w" "ord_9w" "user_9w" 100 "card") none none =
      HttpResult.err 400 "Only completed payments can be refunded" ∧
    refund completedPaymentEx (some 200) none =
      HttpResult.ok 200 { completedPaymentEx with
        status := .refunded
        refundAmount := some 200
        refundReason := none } := by
  constructor
  · exact (C9_refund_guard (mkPayment "pay_9w" "ord_9w" "user_9w" 100 "card")
      none none).2.1 (by decide)
  · exact ((C9_refund_guard completedPaymentEx (some 200) none).2.2 rfl 200
      (by norm_num))

/-- A Completed payment of 250 for claim C10. -/
def completedPayment250 : Payment :=
  { mkPayment "pay_10" "ord_10" "user_10" 250 "upi" with status := .completed }

/-- C10 confirmed.  On a Completed payment, a refund request whose amount
is omitted or zero (falsy in JavaScript, so `amount || payment.amount`
selects the original) refunds the full original amount: the payment ends
Refunded with refundAmount equal to payment.amount. -/
theorem C10_falsy_amount_full_refund (p : Payment) (r : Option String)
    (h : p.status = PaymentStatus.completed) :
    refund p none r = HttpResult.ok 200 { p with
      status := .refunded
      refundAmount := some p.amount
      refundReason := r } ∧
    refund p (some 0) r = HttpResult.ok 200 { p with
      status := .refunded
      refundAmount := some p.amount
      refundReason := r } := by
  constructor <;> simp [refund, h]

/-- Witness for `C10_falsy_amount_full_refund`: the Completed payment of
250 is fully refunded when the amount is omitted. -/
theorem C10_falsy_amount_full_refund_witness :
    refund completedPayment250 none none =
      HttpResult.ok 200 { completedPayment250 with
        status := .refunded
        refundAmount := some completedPayment250.amount
        refundReason := none } :=
  (C10_falsy_amount_full_refund completedPayment250 none rfl).1
